import Mathlib

/-!
Verification development for the CollectionFlow / dagster-xml-example pipeline.

The development shallowly embeds the computational core of the repository:

* the enrichment transform `objects_transform` (pipeline.py lines 76-156,
  pipeline_xml.py lines 82-175): explode → left-join → re-nest of the
  `classifications` and `constituents` nested columns against the
  terminology lookup, plus pass-through of the flat columns, a left join
  of the re-nested groups back onto the object rows, and `fill_null([])`;
* the Pandera validation layer `check_objects_transform`
  (pipeline.py lines 298-318: `ObjectTransformSchema.validate(lazy=True)`;
  pipeline_xml.py lines 183-198 with schema.py: per-column
  `validate(lazy=False)`), and the caller-side deduplication loop of
  `main` (pipeline.py lines 471-478);
* the laziness of the Polars plan relevant to error timing: plan
  construction is a total operation and column-resolution errors
  surface only at `collect(engine="streaming")`.

DataFrames are embedded as lists of typed records in row order.  Polars
joins on string keys never match null keys (`join_nulls=False` default),
which `keyEq` reflects.  `group_by(...).agg(pl.struct(...))` is embedded
by `groupBy`: one output pair per distinct key, the group holding that
key's rows in their original order (Polars guarantees aggregation-order
stability within a group; the ordering of the group keys themselves is
irrelevant here because the grouped frame is only ever used as the right
side of a key-equality join).  Python floats carrying dimension values
are embedded as rationals (only order comparisons are performed on
them).  String rendering of example failing values (the
`str(...)[:80]` truncation) is abstracted away: a failure entry carries
its column and check name, which is all the validation claims refer to.
-/

/-- One row of the terminology lookup table produced by
`harvest_terminology`: `term_id`, `term_type`, `label` (all possibly
null, as `term.get(...)` / `term.text` may be absent). -/
structure TermRow where
  term_id : Option String
  term_type : Option String
  label : Option String
deriving DecidableEq, Repr

/-- One element of the `classification_ids` nested column as harvested
(`_parse_object_xml`): the two foreign keys. -/
structure Classification where
  type_id : Option String
  term_id : Option String
deriving DecidableEq, Repr

/-- One element of the harvested `constituents` nested column. -/
structure ConstituentIn where
  name : Option String
  role : Option String
  birth_year : Option Int
  nationality_id : Option String
deriving DecidableEq, Repr

/-- One element of the `dimensions` pass-through nested column.  The
`value` field is `float(d.get("value", 0))` in the source, hence never
null; it is embedded as a rational. -/
structure Dimension where
  type : Option String
  value : Rat
  unit : Option String
deriving DecidableEq, Repr

/-- One element of the `media` pass-through nested column. -/
structure Media where
  type : Option String
  url : Option String
  caption : Option String
deriving DecidableEq, Repr

/-- One row of the harvested objects table (`harvest_objects`), the
input of `objects_transform` after the xml variant's column-name
normalisation (`id` → `object_id`, `classifications` →
`classification_ids`). -/
structure ObjRow where
  object_id : String
  title : String
  date_made : Option Int
  credit_line : String
  department : String
  constituents : List ConstituentIn
  classification_ids : List Classification
  dimensions : List Dimension
  media : List Media
deriving DecidableEq, Repr

/-- One element of the enriched `classifications` column: the
`select("object_id", "type_label", "term_label")` keeps only the two
resolved labels. -/
structure ClassOut where
  type_label : Option String
  term_label : Option String
deriving DecidableEq, Repr

/-- One element of the enriched `constituents` column: the
`select(..., "name", "role", "birth_year", "nationality")` drops the
`nationality_id` foreign key and keeps the resolved `nationality`. -/
structure ConstituentOut where
  name : Option String
  role : Option String
  birth_year : Option Int
  nationality : Option String
deriving DecidableEq, Repr

/-- One row of the output of `objects_transform`. -/
structure OutRow where
  object_id : String
  title : String
  date_made : Option Int
  credit_line : String
  department : String
  dimensions : List Dimension
  media : List Media
  classifications : List ClassOut
  constituents : List ConstituentOut
deriving DecidableEq, Repr

/-- Polars join-key equality: null keys never match (`join_nulls=False`
is the Polars default used by every join in the source). -/
def keyEq (a b : Option String) : Bool :=
  match a, b with
  | some x, some y => x == y
  | _, _ => false

/-- Left-join one exploded row's foreign key `k` against a lookup view
(list of (identifier, label) pairs): no matching identifier yields a
single null label; each matching lookup row yields its label. -/
def leftJoinVals (lk : List (Option String × Option String)) (k : Option String) :
    List (Option String) :=
  match (lk.filter (fun p => keyEq p.1 k)).map (fun p => p.2) with
  | [] => [none]
  | ms => ms

/-- Label attached to key `k` by a left join against a lookup view with
unique identifiers: the matched row's label, or null if unmatched. -/
def lookupVal (lk : List (Option String × Option String)) (k : Option String) :
    Option String :=
  match lk.find? (fun p => keyEq p.1 k) with
  | some p => p.2
  | none => none

/-- Key list with duplicates removed, keeping first occurrences. -/
def dedupKeys : List String → List String
  | [] => []
  | k :: rest => k :: (dedupKeys rest).filter (fun x => !(x == k))

/-- Embedding of `group_by(key).agg(pl.struct(...))`: one pair per
distinct key, the group carrying that key's values in their original
row order (Polars aggregates group elements in order of appearance). -/
def groupBy {β : Type} (rows : List (String × β)) : List (String × List β) :=
  (dedupKeys (rows.map (fun p => p.1))).map
    (fun k => (k, (rows.filter (fun p => p.1 == k)).map (fun p => p.2)))

/-- Left-join an object row's `object_id` against a re-nested grouped
frame: no matching group yields a single null, each matching group
yields its element list. -/
def leftJoinGroup {β : Type} (g : List (String × List β)) (k : String) :
    List (Option (List β)) :=
  match (g.filter (fun p => p.1 == k)).map (fun p => p.2) with
  | [] => [none]
  | ms => ms.map some

/-- Group attached to key `k` when the grouped frame's keys are unique:
the matching group, or none. -/
def lookupGroup {β : Type} (g : List (String × List β)) (k : String) :
    Option (List β) :=
  (g.find? (fun p => p.1 == k)).map (fun p => p.2)

/-- Lookup view `type_labels`: `terminology.select(term_id as type_id,
label as type_label)` (pipeline.py lines 94-97). -/
def type_labels (term : List TermRow) : List (Option String × Option String) :=
  term.map (fun t => (t.term_id, t.label))

/-- Lookup view `term_labels`: `terminology.select(term_id, label as
term_label)` (pipeline.py lines 98-101). -/
def term_labels (term : List TermRow) : List (Option String × Option String) :=
  term.map (fun t => (t.term_id, t.label))

/-- Lookup view `nationality_lookup`: terminology filtered to
`term_type == "nationality"`, selecting (nationality_id, nationality)
(pipeline.py lines 120-125). -/
def nationality_lookup (term : List TermRow) : List (Option String × Option String) :=
  (term.filter (fun t => t.term_type == some "nationality")).map
    (fun t => (t.term_id, t.label))

/-- `classifications_flat` (pipeline.py lines 103-108): select
(object_id, classification_ids), filter rows with a non-empty list,
explode, unnest — one (object_id, element) pair per element, in row
then element order. -/
def classifications_flat (objs : List ObjRow) : List (String × Classification) :=
  (objs.filter (fun r => r.classification_ids.length > 0)).flatMap
    (fun r => r.classification_ids.map (fun c => (r.object_id, c)))

/-- The two sequential left joins of `classifications_nested`
(pipeline.py lines 110-114) before re-nesting: each flat row joins
`type_labels` on `type_id` then `term_labels` on `term_id`, and the
select keeps (object_id, type_label, term_label). -/
def classifications_joined (term : List TermRow) (objs : List ObjRow) :
    List (String × ClassOut) :=
  (classifications_flat objs).flatMap (fun p =>
    (leftJoinVals (type_labels term) p.2.type_id).flatMap (fun tl =>
      (leftJoinVals (term_labels term) p.2.term_id).map (fun ml =>
        (p.1, ClassOut.mk tl ml))))

/-- `classifications_nested` (pipeline.py lines 110-117): the joined
rows grouped back by object_id into a struct list. -/
def classifications_nested (term : List TermRow) (objs : List ObjRow) :
    List (String × List ClassOut) :=
  groupBy (classifications_joined term objs)

/-- `constituents_flat` (pipeline.py lines 127-132). -/
def constituents_flat (objs : List ObjRow) : List (String × ConstituentIn) :=
  (objs.filter (fun r => r.constituents.length > 0)).flatMap
    (fun r => r.constituents.map (fun c => (r.object_id, c)))

/-- The left join of `constituents_nested` (pipeline.py lines 134-137):
each flat row joins `nationality_lookup` on `nationality_id`, and the
select keeps (object_id, name, role, birth_year, nationality). -/
def constituents_joined (term : List TermRow) (objs : List ObjRow) :
    List (String × ConstituentOut) :=
  (constituents_flat objs).flatMap (fun p =>
    (leftJoinVals (nationality_lookup term) p.2.nationality_id).map (fun nat =>
      (p.1, ConstituentOut.mk p.2.name p.2.role p.2.birth_year nat)))

/-- `constituents_nested` (pipeline.py lines 134-140). -/
def constituents_nested (term : List TermRow) (objs : List ObjRow) :
    List (String × List ConstituentOut) :=
  groupBy (constituents_joined term objs)

/-- Final assembly row constructor: the flat and pass-through columns
come from the object row, the two enriched columns from the group
joins, with `fill_null([])` applied (pipeline.py lines 143-154). -/
def assembleRow (r : ObjRow) (cs : Option (List ClassOut))
    (ks : Option (List ConstituentOut)) : OutRow :=
  { object_id := r.object_id
    title := r.title
    date_made := r.date_made
    credit_line := r.credit_line
    department := r.department
    dimensions := r.dimensions
    media := r.media
    classifications := cs.getD []
    constituents := ks.getD [] }

/-- `objects_transform` (pipeline.py lines 76-156, pipeline_xml.py lines
82-175): select the flat and pass-through columns of each object row,
left-join the two re-nested enrichment frames on object_id, fill null
groups with empty lists, and collect. -/
def objects_transform (term : List TermRow) (objs : List ObjRow) : List OutRow :=
  objs.flatMap (fun r =>
    (leftJoinGroup (classifications_nested term objs) r.object_id).flatMap (fun cs =>
      (leftJoinGroup (constituents_nested term objs) r.object_id).map (fun ks =>
        assembleRow r cs ks)))

/-!
Validation layer.  Per-row check semantics follows the Polars
expressions literally: `list.any` of an empty list is false, `list.all`
of an empty list is true, null comparison results are ignored by the
list aggregations (Polars drops nulls in `list.any`/`list.all`/
`list.sum`/`list.min`/`list.max`), and `list.min`/`list.max` of a list
with no non-null element is null.  A check result of null counts as a
pass (Pandera's default null handling); a row fails a check exactly
when the result is `some false`.  Dtype conformance is carried by the
typed embedding itself and therefore out of model scope, as is the
`str(...)[:80]` rendering of the example failing value.
-/

/-- Built-in `unique=True` check on `object_id`: a row fails when its
identifier occurs more than once in the column (Polars
`is_duplicated` marks every occurrence). -/
def object_id_unique (t : List OutRow) (r : OutRow) : Option Bool :=
  some (decide ((t.countP (fun x => x.object_id == r.object_id)) ≤ 1))

/-- Built-in `str_length(min_value=1)` check on `title`. -/
def title_min_length (r : OutRow) : Option Bool :=
  some (decide (1 ≤ r.title.length))

/-- Built-in `nullable=True, ge=0, le=2100` field bounds on
`date_made` (pipeline.py line 177); a null passes. -/
def date_made_range (r : OutRow) : Option Bool :=
  match r.date_made with
  | none => some true
  | some d => some (decide (0 ≤ d ∧ d ≤ 2100))

/-- Check `has_at_least_one_constituent` (pipeline.py lines 187-190):
`col.list.len() > 0`. -/
def has_constituents (r : OutRow) : Option Bool :=
  some (decide (0 < r.constituents.length))

/-- Check `has_at_least_one_image` (pipeline.py lines 192-195). -/
def has_media (r : OutRow) : Option Bool :=
  some (decide (0 < r.media.length))

/-- Check `all_dimension_values_gt_1` (pipeline.py lines 199-203):
`list.eval(struct.field("value")).list.min() > 1`; the min of an empty
list is null, and a null comparison result is a pass. -/
def dimension_values_positive (r : OutRow) : Option Bool :=
  match (r.dimensions.map (fun d => d.value)).min? with
  | some m => some (decide (1 < m))
  | none => none

/-- Check `has_height_dimension` (pipeline.py lines 205-211):
`list.eval(struct.field("type") == "height").list.any()`. -/
def has_height (r : OutRow) : Option Bool :=
  some (r.dimensions.any (fun d => d.type == some "height"))

/-- Check `all_units_are_cm` (pipeline.py lines 213-219): a null unit
yields a null element comparison, dropped by `list.all`. -/
def units_consistent (r : OutRow) : Option Bool :=
  some (r.dimensions.all (fun d =>
    match d.unit with
    | some u => u == "cm"
    | none => true))

/-- Check `all_urls_are_https` (pipeline.py lines 223-229): a null url
yields a null `str.starts_with`, dropped by `list.all`; the prefix test
is expressed on the character lists. -/
def urls_are_https (r : OutRow) : Option Bool :=
  some (r.media.all (fun m =>
    match m.url with
    | some u => List.isPrefixOf "https://".data u.data
    | none => true))

/-- Check `has_primary_image` (pipeline.py lines 231-237):
`list.eval(struct.field("type") == "primary").list.sum() == 1`. -/
def has_primary_image (r : OutRow) : Option Bool :=
  some (decide ((r.media.countP (fun m => m.type == some "primary")) = 1))

/-- Check `no_empty_constituent_names` (pipeline.py lines 239-247):
`~has_items | names_ok`. -/
def constituent_names_not_empty (r : OutRow) : Option Bool :=
  some (!(decide (0 < r.constituents.length)) ||
    r.constituents.all (fun k =>
      match k.name with
      | some n => decide (0 < n.length)
      | none => true))

/-- Check `has_at_least_one_artist` (pipeline.py lines 249-257):
`~has_items | has_artist_role`. -/
def has_artist (r : OutRow) : Option Bool :=
  some (!(decide (0 < r.constituents.length)) ||
    r.constituents.any (fun k => k.role == some "artist"))

/-- Check `no_null_labels_in_classifications` (pipeline.py lines
259-267): `~has_items | no_nulls`. -/
def classification_labels_resolved (r : OutRow) : Option Bool :=
  some (!(decide (0 < r.classifications.length)) ||
    r.classifications.all (fun c => c.term_label.isSome))

/-- Dataframe-wide check `sculpture_must_have_depth` (pipeline.py lines
271-279): `~is_sculpture | has_depth`. -/
def sculpture_has_depth (r : OutRow) : Option Bool :=
  some (!(r.department == "Sculpture") ||
    r.dimensions.any (fun d => d.type == some "depth"))

/-- Maximum constituent birth year of a row:
`list.eval(struct.field("birth_year")).list.max()` — null birth years
are dropped, and the max of nothing is null. -/
def max_birth (r : OutRow) : Option Int :=
  (r.constituents.filterMap (fun k => k.birth_year)).max?

/-- Dataframe-wide check `constituent_born_before_artwork` (pipeline.py
lines 281-291): `both_known := date_made.is_not_null() &
max_birth.is_not_null()`; result `~both_known | (max_birth <
date_made)` — a row with either side null passes. -/
def birth_before_creation (r : OutRow) : Option Bool :=
  match r.date_made, max_birth r with
  | some d, some b => some (decide (b < d))
  | _, _ => some true

/-- Identifier for each check of `ObjectTransformSchema`
(pipeline.py). -/
inductive CheckId where
  | object_id_unique
  | title_min_length
  | date_made_range
  | has_at_least_one_constituent
  | has_at_least_one_image
  | all_dimension_values_gt_1
  | has_height_dimension
  | all_units_are_cm
  | all_urls_are_https
  | has_primary_image
  | no_empty_constituent_names
  | has_at_least_one_artist
  | no_null_labels_in_classifications
  | sculpture_must_have_depth
  | constituent_born_before_artwork
deriving DecidableEq, Repr

/-- Column a check is registered on; dataframe-wide checks have none. -/
def checkColumn : CheckId → Option String
  | .object_id_unique => some "object_id"
  | .title_min_length => some "title"
  | .date_made_range => some "date_made"
  | .has_at_least_one_constituent => some "constituents"
  | .has_at_least_one_image => some "media"
  | .all_dimension_values_gt_1 => some "dimensions"
  | .has_height_dimension => some "dimensions"
  | .all_units_are_cm => some "dimensions"
  | .all_urls_are_https => some "media"
  | .has_primary_image => some "media"
  | .no_empty_constituent_names => some "constituents"
  | .has_at_least_one_artist => some "constituents"
  | .no_null_labels_in_classifications => some "classifications"
  | .sculpture_must_have_depth => none
  | .constituent_born_before_artwork => none

/-- Registered name of each check. -/
def checkName : CheckId → String
  | .object_id_unique => "field_uniqueness"
  | .title_min_length => "str_length"
  | .date_made_range => "in_range"
  | .has_at_least_one_constituent => "has_at_least_one_constituent"
  | .has_at_least_one_image => "has_at_least_one_image"
  | .all_dimension_values_gt_1 => "all_dimension_values_gt_1"
  | .has_height_dimension => "has_height_dimension"
  | .all_units_are_cm => "all_units_are_cm"
  | .all_urls_are_https => "all_urls_are_https"
  | .has_primary_image => "has_primary_image"
  | .no_empty_constituent_names => "no_empty_constituent_names"
  | .has_at_least_one_artist => "has_at_least_one_artist"
  | .no_null_labels_in_classifications => "no_null_labels_in_classifications"
  | .sculpture_must_have_depth => "sculpture_must_have_depth"
  | .constituent_born_before_artwork => "constituent_born_before_artwork"

/-- Per-row result of each check (the table is passed through for the
uniqueness check, which inspects the whole column). -/
def checkRow : CheckId → List OutRow → OutRow → Option Bool
  | .object_id_unique, t, r => object_id_unique t r
  | .title_min_length, _, r => title_min_length r
  | .date_made_range, _, r => date_made_range r
  | .has_at_least_one_constituent, _, r => has_constituents r
  | .has_at_least_one_image, _, r => has_media r
  | .all_dimension_values_gt_1, _, r => dimension_values_positive r
  | .has_height_dimension, _, r => has_height r
  | .all_units_are_cm, _, r => units_consistent r
  | .all_urls_are_https, _, r => urls_are_https r
  | .has_primary_image, _, r => has_primary_image r
  | .no_empty_constituent_names, _, r => constituent_names_not_empty r
  | .has_at_least_one_artist, _, r => has_artist r
  | .no_null_labels_in_classifications, _, r => classification_labels_resolved r
  | .sculpture_must_have_depth, _, r => sculpture_has_depth r
  | .constituent_born_before_artwork, _, r => birth_before_creation r

/-- Evaluation order of the schema components: field-level checks in
column-declaration order, then the custom column checks in declaration
order, then the dataframe-wide checks. -/
def allChecks : List CheckId :=
  [.object_id_unique, .title_min_length, .date_made_range,
   .has_at_least_one_constituent, .has_at_least_one_image,
   .all_dimension_values_gt_1, .has_height_dimension, .all_units_are_cm,
   .all_urls_are_https, .has_primary_image,
   .no_empty_constituent_names, .has_at_least_one_artist,
   .no_null_labels_in_classifications,
   .sculpture_must_have_depth, .constituent_born_before_artwork]

/-- One entry of the failure list built by `check_objects_transform`
from `e.failure_cases` rows: the column (null for dataframe-wide
checks) and the check name.  The truncated example-value string of the
source entry is abstracted away. -/
structure Err where
  column : Option String
  check : String
deriving DecidableEq, Repr

/-- A check-result cell marks its row as failing exactly when it is a
non-null false. -/
def rowFails (res : Option Bool) : Bool :=
  res == some false

/-- Failure cases of `ObjectTransformSchema.validate(lazy=True)`: one
entry per (check, failing row), every check evaluated. -/
def failure_cases (t : List OutRow) : List Err :=
  allChecks.flatMap (fun c =>
    ((t.map (checkRow c t)).filter rowFails).map
      (fun _ => Err.mk (checkColumn c) (checkName c)))

/-- `check_objects_transform` (pipeline.py lines 298-318): validation
succeeds — `(True, [])` — exactly when there is no failure case;
otherwise `SchemaErrors` is caught and every failure-case row is
converted to an error entry. -/
def check_objects_transform (t : List OutRow) : Bool × List Err :=
  if (failure_cases t).isEmpty then (true, [])
  else (false, failure_cases t)

/-- Caller-side deduplication loop of `main` (pipeline.py lines
471-478): keep the first entry of each (column, check) key. -/
def dedup_errors_go (seen : List (Option String × String)) : List Err → List Err
  | [] => []
  | e :: rest =>
    if (e.column, e.check) ∈ seen then dedup_errors_go seen rest
    else e :: dedup_errors_go ((e.column, e.check) :: seen) rest

/-- Deduplicated error list as printed by `main`. -/
def dedup_errors (errs : List Err) : List Err :=
  dedup_errors_go [] errs

/-!
The xml variant: schema.py declares `object_transform_schema` as a
`pa.DataFrameSchema`, and pipeline_xml.py's `check_objects_transform`
validates it column by column with `lazy=False`, so within one column
only the first failing check is reported.  Three of schema.py's check
expressions differ from the `ObjectTransformSchema` classmethods by
lacking the `~has_items |` vacuous guard; only `has_at_least_one_artist`
differs observably (an empty list fails it in schema.py and passes it in
pipeline.py).
-/

/-- schema.py's `has_at_least_one_artist` (lines 153-161): bare
`list.eval(role == "artist").list.any()`, no empty-list guard. -/
def has_artist_xml (r : OutRow) : Option Bool :=
  some (r.constituents.any (fun k => k.role == some "artist"))

/-- schema.py's `no_empty_constituent_names` (lines 142-152): bare
`list.all()`, which is vacuously true on an empty list. -/
def constituent_names_not_empty_xml (r : OutRow) : Option Bool :=
  some (r.constituents.all (fun k =>
    match k.name with
    | some n => decide (0 < n.length)
    | none => true))

/-- schema.py's `no_null_labels_in_classifications` (lines 110-122):
bare `list.all()`. -/
def classification_labels_resolved_xml (r : OutRow) : Option Bool :=
  some (r.classifications.all (fun c => c.term_label.isSome))

/-- One named check of `object_transform_schema` (schema.py). -/
structure XmlCheck where
  name : String
  run : List OutRow → OutRow → Option Bool

/-- Ordered check list of the `constituents` column in schema.py
(lines 124-163). -/
def xml_constituents_checks : List XmlCheck :=
  [XmlCheck.mk "has_at_least_one_constituent" (fun _ => has_constituents),
   XmlCheck.mk "no_empty_constituent_names"
     (fun _ => constituent_names_not_empty_xml),
   XmlCheck.mk "has_at_least_one_artist" (fun _ => has_artist_xml)]

/-- Columns of `object_transform_schema` in declaration order, each
with its ordered check list (schema.py lines 13-167; `date_made` is
nullable with no value checks there, and there are no dataframe-wide
checks). -/
def xml_schema_columns : List (String × List XmlCheck) :=
  [("object_id", [XmlCheck.mk "field_uniqueness" object_id_unique]),
   ("title", [XmlCheck.mk "str_length" (fun _ => title_min_length)]),
   ("date_made", []),
   ("credit_line", []),
   ("department", []),
   ("dimensions",
    [XmlCheck.mk "all_dimension_values_gt_1" (fun _ => dimension_values_positive),
     XmlCheck.mk "has_height_dimension" (fun _ => has_height),
     XmlCheck.mk "all_units_are_cm" (fun _ => units_consistent)]),
   ("media",
    [XmlCheck.mk "all_urls_are_https" (fun _ => urls_are_https),
     XmlCheck.mk "has_primary_image" (fun _ => has_primary_image),
     XmlCheck.mk "has_at_least_one_image" (fun _ => has_media)]),
   ("classifications",
    [XmlCheck.mk "no_null_labels_in_classifications"
      (fun _ => classification_labels_resolved_xml)]),
   ("constituents", xml_constituents_checks)]

/-- Whether a check fails on at least one row of the table (what makes
a `lazy=False` validation raise `SchemaError`). -/
def checkFailsSomewhere (t : List OutRow) (c : XmlCheck) : Bool :=
  t.any (fun r => rowFails (c.run t r))

/-- Error list collected by pipeline_xml.py's `check_objects_transform`
(lines 183-198): each column of the schema is validated separately with
`lazy=False`, so per column at most one error — the first failing
check — is appended. -/
def xml_errors (t : List OutRow) : List Err :=
  xml_schema_columns.filterMap (fun p =>
    (p.2.find? (checkFailsSomewhere t)).map (fun c => Err.mk (some p.1) c.name))

/-- Verdict of pipeline_xml.py's `check_objects_transform`:
`(True, [])` exactly when no column errored. -/
def check_objects_transform_xml (t : List OutRow) : Bool × List Err :=
  if (xml_errors t).isEmpty then (true, []) else (false, xml_errors t)

/-!
Error-timing model for the lazy plan.  Every frame operation in
`objects_transform` runs on a `pl.LazyFrame`: `select`, `filter`,
`explode`, `unnest`, `join`, `group_by`, `agg`, `with_columns` only
record the operation in the query plan, and Polars resolves column
names against the input schema when the plan is collected — a
reference to a missing column raises `ColumnNotFoundError` at
`collect(engine="streaming")` (pipeline.py line 156, pipeline_xml.py
line 173), not while the plan is built.  The same holds for the struct
fields of the two exploded nested columns: `unnest` turns each element
field into a sibling column at evaluation time, so a join key or
select that names a field absent from the element shape (for example
`term_id` inside `classification_ids`, or `nationality_id` inside
`constituents`) also surfaces as `ColumnNotFoundError` at collect,
never at plan-build time.  A frame is modelled as its rows plus the
column names it actually carries and, for the objects frame, the
struct-field names its two nested enrichment columns carry; collection
first resolves every referenced column and field name against those
lists and only then evaluates the plan on the rows.
-/

/-- Input terminology frame together with its column names. -/
structure TermFrame where
  schema : List String
  rows : List TermRow
deriving Repr

/-- Input objects frame together with its column names and the
struct-field names of its two nested enrichment columns. -/
structure ObjFrame where
  schema : List String
  classification_fields : List String
  constituent_fields : List String
  rows : List ObjRow
deriving Repr

/-- The unevaluated lazy query built by the body of
`objects_transform` before line 156: it records its two sources; no
column name has been resolved yet. -/
structure LazyObjectsPlan where
  terminology : TermFrame
  objects : ObjFrame
deriving Repr

/-- Column names of the objects frame referenced by the plan (the
selects, filters, explodes, joins and fill_nulls of pipeline.py lines
103-154). -/
def objectsReferencedCols : List String :=
  ["object_id", "classification_ids", "constituents", "title", "date_made",
   "credit_line", "department", "dimensions", "media"]

/-- Struct-field names of `classification_ids` elements referenced
after the unnest: the two join keys of pipeline.py lines 110-113. -/
def classificationReferencedFields : List String :=
  ["type_id", "term_id"]

/-- Struct-field names of `constituents` elements referenced after the
unnest: the join key and the selected fields of pipeline.py lines
134-139. -/
def constituentReferencedFields : List String :=
  ["nationality_id", "name", "role", "birth_year"]

/-- Column names of the terminology frame referenced by the plan
(pipeline.py lines 94-101 and 120-125). -/
def terminologyReferencedCols : List String :=
  ["term_id", "label", "term_type"]

/-- Plan construction (pipeline.py lines 90-154): building the lazy
query is total — the Polars lazy API raises nothing here even when a
referenced column or struct field is absent from an input frame. -/
def objects_transform_plan (t : TermFrame) (o : ObjFrame) : LazyObjectsPlan :=
  LazyObjectsPlan.mk t o

/-- Referenced columns and struct fields missing from the plan's input
frames. -/
def missing_columns (p : LazyObjectsPlan) : List String :=
  objectsReferencedCols.filter (fun c => !(p.objects.schema.contains c)) ++
    classificationReferencedFields.filter
      (fun c => !(p.objects.classification_fields.contains c)) ++
    constituentReferencedFields.filter
      (fun c => !(p.objects.constituent_fields.contains c)) ++
    terminologyReferencedCols.filter (fun c => !(p.terminology.schema.contains c))

/-- Terminal `collect(engine="streaming")`: name resolution happens
here; a missing referenced column or struct field aborts the
collection with `ColumnNotFoundError`, otherwise the plan is
evaluated. -/
def collect_streaming (p : LazyObjectsPlan) : Except String (List OutRow) :=
  match missing_columns p with
  | [] => Except.ok (objects_transform p.terminology.rows p.objects.rows)
  | c :: _ => Except.error ("ColumnNotFoundError: " ++ c)

/-- The whole `objects_transform` asset on schema-carrying frames:
build the lazy plan, then collect it. -/
def objects_transform_frames (t : TermFrame) (o : ObjFrame) :
    Except String (List OutRow) :=
  collect_streaming (objects_transform_plan t o)

/-!
Core lemmas about the grouped joins.
-/

/-- Uniqueness of the non-null identifiers of a lookup view, the
LookupIndex invariant of the data model. -/
def UniqueKeys (lk : List (Option String × Option String)) : Prop :=
  lk.Pairwise (fun p q => p.1.isSome = true → p.1 ≠ q.1)

/-- Uniqueness of the non-null term identifiers of the terminology
table, which makes every derived lookup view unique. -/
@[reducible] def TermIdsUnique (term : List TermRow) : Prop :=
  term.Pairwise (fun a b => a.term_id.isSome = true → a.term_id ≠ b.term_id)

theorem keyEq_none_right (a : Option String) : keyEq a none = false := by
  cases a <;> rfl

theorem keyEq_some_iff {a : Option String} {x : String} :
    keyEq a (some x) = true ↔ a = some x := by
  cases a with
  | none => simp [keyEq]
  | some y => simp [keyEq]

theorem type_labels_uniqueKeys {term : List TermRow} (h : TermIdsUnique term) :
    UniqueKeys (type_labels term) := by
  unfold UniqueKeys type_labels
  exact List.pairwise_map.mpr h

theorem term_labels_uniqueKeys {term : List TermRow} (h : TermIdsUnique term) :
    UniqueKeys (term_labels term) := by
  unfold UniqueKeys term_labels
  exact List.pairwise_map.mpr h

theorem nationality_lookup_uniqueKeys {term : List TermRow} (h : TermIdsUnique term) :
    UniqueKeys (nationality_lookup term) := by
  unfold UniqueKeys nationality_lookup
  exact List.pairwise_map.mpr (List.Pairwise.filter _ h)

/-- With unique lookup identifiers the element-level left join attaches
exactly one label to each exploded row: the looked-up one. -/
theorem leftJoinVals_eq (lk : List (Option String × Option String))
    (h : UniqueKeys lk) (k : Option String) :
    leftJoinVals lk k = [lookupVal lk k] := by
  induction lk with
  | nil => rfl
  | cons p rest ih =>
    rcases h with _ | ⟨hp, hrest⟩
    by_cases hk : keyEq p.1 k = true
    · cases k with
      | none => rw [keyEq_none_right] at hk; exact absurd hk (by simp)
      | some x =>
        have hp1 : p.1 = some x := keyEq_some_iff.mp hk
        have hrestnil :
            rest.filter (fun q => keyEq q.1 (some x)) = [] := by
          rw [List.filter_eq_nil_iff]
          intro q hq hkq
          have hq1 : q.1 = some x := keyEq_some_iff.mp hkq
          exact (hp q hq (by rw [hp1]; rfl)) (by rw [hp1, hq1])
        unfold leftJoinVals lookupVal
        rw [List.filter_cons_of_pos (by simpa using hk), hrestnil,
          List.find?_cons_of_pos _ (by simpa using hk)]
        rfl
    · have hfilter :
          List.filter (fun q => keyEq q.1 k) (p :: rest) =
            List.filter (fun q => keyEq q.1 k) rest := by
        rw [List.filter_cons_of_neg (by simpa using hk)]
      have hfind :
          List.find? (fun q => keyEq q.1 k) (p :: rest) =
            List.find? (fun q => keyEq q.1 k) rest := by
        rw [List.find?_cons_of_neg _ (by simpa using hk)]
      unfold leftJoinVals lookupVal
      rw [hfilter, hfind]
      exact ih hrest

theorem dedupKeys_nodup (l : List String) : (dedupKeys l).Nodup := by
  induction l with
  | nil => exact List.nodup_nil
  | cons k rest ih =>
    refine List.nodup_cons.mpr ⟨?_, List.Nodup.filter _ ih⟩
    intro hmem
    have := (List.mem_filter.mp hmem).2
    simp at this

theorem mem_dedupKeys {l : List String} {a : String} :
    a ∈ dedupKeys l ↔ a ∈ l := by
  induction l with
  | nil => simp [dedupKeys]
  | cons k rest ih =>
    by_cases hak : a = k
    · subst hak; simp [dedupKeys]
    · simp only [dedupKeys, List.mem_cons, List.mem_filter]
      constructor
      · rintro (rfl | ⟨hmem, _⟩)
        · exact Or.inl rfl
        · exact Or.inr (ih.mp hmem)
      · rintro (rfl | hmem)
        · exact Or.inl rfl
        · exact Or.inr ⟨ih.mpr hmem, by simpa using hak⟩

theorem find?_beq_self (l : List String) (k : String) :
    l.find? (fun x => x == k) = if k ∈ l then some k else none := by
  induction l with
  | nil => simp
  | cons x rest ih =>
    by_cases hx : x = k
    · subst hx
      rw [List.find?_cons_of_pos _ (by simp)]
      simp
    · rw [List.find?_cons_of_neg _ (by simpa using hx), ih]
      simp [List.mem_cons, Ne.symm hx, hx]

/-- The re-nested grouped frame, probed at a key, returns exactly the
group of rows carrying that key (in their original order), or nothing
when the key never occurs. -/
theorem lookupGroup_groupBy {β : Type} (rows : List (String × β)) (k : String) :
    lookupGroup (groupBy rows) k =
      if k ∈ rows.map (fun p => p.1) then
        some ((rows.filter (fun p => p.1 == k)).map (fun p => p.2))
      else none := by
  unfold lookupGroup groupBy
  rw [List.find?_map]
  have hcomp :
      ((fun p => p.1 == k) ∘
        (fun k2 => (k2, (rows.filter (fun p => p.1 == k2)).map (fun p => p.2)))) =
        (fun x => x == k) := rfl
  rw [hcomp, find?_beq_self]
  by_cases hmem : k ∈ rows.map (fun p => p.1)
  · rw [if_pos (mem_dedupKeys.mpr hmem), if_pos hmem]
    rfl
  · rw [if_neg (fun hc => hmem (mem_dedupKeys.mp hc)), if_neg hmem]
    rfl

theorem groupBy_keys_pairwise {β : Type} (rows : List (String × β)) :
    (groupBy rows).Pairwise (fun p q => p.1 ≠ q.1) := by
  unfold groupBy
  exact List.pairwise_map.mpr (dedupKeys_nodup _)

theorem filter_fst_eq_nil {β : Type} {g : List (String × List β)} {k : String}
    (h : ∀ p ∈ g, p.1 ≠ k) : g.filter (fun p => p.1 == k) = [] := by
  rw [List.filter_eq_nil_iff]
  intro p hp
  simpa using h p hp

/-- With pairwise-distinct group keys, the left join of a key against
the grouped frame yields exactly one row. -/
theorem leftJoinGroup_eq {β : Type} (g : List (String × List β))
    (h : g.Pairwise (fun p q => p.1 ≠ q.1)) (k : String) :
    leftJoinGroup g k = [lookupGroup g k] := by
  induction g with
  | nil => rfl
  | cons p rest ih =>
    rcases h with _ | ⟨hp, hrest⟩
    by_cases hk : p.1 = k
    · have hrestnil : rest.filter (fun q => q.1 == k) = [] :=
        filter_fst_eq_nil (fun q hq => by rw [← hk]; exact Ne.symm (hp q hq))
      unfold leftJoinGroup lookupGroup
      rw [List.filter_cons_of_pos (by simpa using hk), hrestnil,
        List.find?_cons_of_pos _ (by simpa using hk)]
      rfl
    · have hfilter :
          List.filter (fun q => q.1 == k) (p :: rest) =
            List.filter (fun q => q.1 == k) rest := by
        rw [List.filter_cons_of_neg (by simpa using hk)]
      have hfind :
          List.find? (fun q => q.1 == k) (p :: rest) =
            List.find? (fun q => q.1 == k) rest := by
        rw [List.find?_cons_of_neg _ (by simpa using hk)]
      unfold leftJoinGroup lookupGroup
      rw [hfilter, hfind]
      exact ih hrest

theorem leftJoinGroup_groupBy {β : Type} (rows : List (String × β)) (k : String) :
    leftJoinGroup (groupBy rows) k = [lookupGroup (groupBy rows) k] :=
  leftJoinGroup_eq _ (groupBy_keys_pairwise rows) k

theorem flatMap_singleton_eq_map {α β : Type} (f : α → β) (l : List α) :
    l.flatMap (fun x => [f x]) = l.map f := by
  induction l with
  | nil => rfl
  | cons a rest ih => simp [List.flatMap_cons, ih]

/-- The final assembly is a per-row map: thanks to the uniqueness of
the re-nested group keys, the two trailing left joins attach exactly
one (possibly null) group per object row, so the output has exactly
one row per input object row. -/
theorem objects_transform_map (term : List TermRow) (objs : List ObjRow) :
    objects_transform term objs = objs.map (fun r =>
      assembleRow r (lookupGroup (classifications_nested term objs) r.object_id)
        (lookupGroup (constituents_nested term objs) r.object_id)) := by
  unfold objects_transform classifications_nested constituents_nested
  simp only [leftJoinGroup_groupBy, List.flatMap_cons, List.flatMap_nil,
    List.append_nil, List.map_cons, List.map_nil]
  exact flatMap_singleton_eq_map _ _

/-- Enrichment of one classification element under unique lookup
identifiers: both labels resolved by key lookup, the foreign keys
dropped by the select. -/
def enrichClass (term : List TermRow) (c : Classification) : ClassOut :=
  ClassOut.mk (lookupVal (type_labels term) c.type_id)
    (lookupVal (term_labels term) c.term_id)

/-- Enrichment of one constituent element under unique lookup
identifiers: the nationality resolved by key lookup, the foreign key
dropped by the select. -/
def enrichConstituent (term : List TermRow) (k : ConstituentIn) : ConstituentOut :=
  ConstituentOut.mk k.name k.role k.birth_year
    (lookupVal (nationality_lookup term) k.nationality_id)

/-- With unique terminology identifiers the exploded-and-joined
classification rows are exactly the flat rows with both labels
attached, in the same order. -/
theorem classifications_joined_eq (term : List TermRow) (objs : List ObjRow)
    (h : TermIdsUnique term) :
    classifications_joined term objs =
      (objs.filter (fun r => r.classification_ids.length > 0)).flatMap
        (fun r => (r.classification_ids.map (enrichClass term)).map
          (fun e => (r.object_id, e))) := by
  unfold classifications_joined classifications_flat
  simp only [leftJoinVals_eq _ (type_labels_uniqueKeys h),
    leftJoinVals_eq _ (term_labels_uniqueKeys h),
    List.flatMap_cons, List.flatMap_nil, List.append_nil,
    List.map_cons, List.map_nil]
  simp only [flatMap_singleton_eq_map, List.map_flatMap, List.map_map]
  simp [Function.comp_def, enrichClass]

/-- Constituent counterpart of `classifications_joined_eq`. -/
theorem constituents_joined_eq (term : List TermRow) (objs : List ObjRow)
    (h : TermIdsUnique term) :
    constituents_joined term objs =
      (objs.filter (fun r => r.constituents.length > 0)).flatMap
        (fun r => (r.constituents.map (enrichConstituent term)).map
          (fun e => (r.object_id, e))) := by
  unfold constituents_joined constituents_flat
  simp only [leftJoinVals_eq _ (nationality_lookup_uniqueKeys h),
    List.map_cons, List.map_nil]
  simp only [flatMap_singleton_eq_map, List.map_flatMap, List.map_map]
  simp [Function.comp_def, enrichConstituent]

theorem filter_flatMap_key_nil {α β : Type} (rows : List α) (key : α → String)
    (els : α → List β) (k : String) (h : ∀ a ∈ rows, key a ≠ k) :
    (rows.flatMap (fun a => (els a).map (fun e => (key a, e)))).filter
      (fun p => p.1 == k) = [] := by
  rw [List.filter_eq_nil_iff]
  intro p hp
  obtain ⟨a, ha, hpa⟩ := List.mem_flatMap.mp hp
  obtain ⟨e, _, rfl⟩ := List.mem_map.mp hpa
  simpa using h a ha

/-- Filtering the exploded rows by one row's key recovers exactly that
row's element block, in order, when row keys are pairwise distinct. -/
theorem filter_flatMap_key {α β : Type} (rows : List α) (key : α → String)
    (els : α → List β) (hnd : rows.Pairwise (fun a b => key a ≠ key b))
    (r : α) (hr : r ∈ rows) :
    ((rows.flatMap (fun a => (els a).map (fun e => (key a, e)))).filter
      (fun p => p.1 == key r)).map (fun p => p.2) = els r := by
  induction rows with
  | nil => cases hr
  | cons a rest ih =>
    rcases hnd with _ | ⟨ha, hrest⟩
    rw [List.flatMap_cons, List.filter_append, List.map_append]
    rcases List.mem_cons.mp hr with rfl | hr2
    · have hblock :
          ((els r).map (fun e => (key r, e))).filter (fun p => p.1 == key r) =
            (els r).map (fun e => (key r, e)) := by
        rw [List.filter_eq_self]
        intro p hp
        obtain ⟨e, _, rfl⟩ := List.mem_map.mp hp
        simp
      have hrestnil :
          (rest.flatMap (fun b => (els b).map (fun e => (key b, e)))).filter
            (fun p => p.1 == key r) = [] :=
        filter_flatMap_key_nil rest key els (key r)
          (fun b hb => Ne.symm (ha b hb))
      rw [hblock, hrestnil, List.map_nil, List.append_nil, List.map_map]
      simp [Function.comp]
    · have hblocknil :
          ((els a).map (fun e => (key a, e))).filter (fun p => p.1 == key r) = [] := by
        rw [List.filter_eq_nil_iff]
        intro p hp
        obtain ⟨e, _, rfl⟩ := List.mem_map.mp hp
        simpa using ha r hr2
      rw [hblocknil, List.map_nil, List.nil_append]
      exact ih hrest hr2

/-- Probing the re-nested grouped frame at one surviving row's key
returns exactly that row's enriched element block; probing it at the
key of a filtered-out row (empty element list) returns nothing, which
`fill_null([])` then turns into an empty list. -/
theorem group_eq_of_blocks {α β : Type} (rows : List α) (key : α → String)
    (els : α → List β) (hnd : rows.Pairwise (fun a b => key a ≠ key b))
    (r : α) (hr : r ∈ rows) :
    (lookupGroup (groupBy ((rows.filter (fun a => (els a).length > 0)).flatMap
        (fun a => (els a).map (fun e => (key a, e))))) (key r)).getD [] = els r := by
  have hsym : Symmetric (fun a b : α => key a ≠ key b) :=
    fun a b hab => Ne.symm hab
  rw [lookupGroup_groupBy]
  by_cases hlen : 0 < (els r).length
  · have hrf : r ∈ rows.filter (fun a => (els a).length > 0) :=
      List.mem_filter.mpr ⟨hr, by simpa using hlen⟩
    have hmem : key r ∈
        ((rows.filter (fun a => (els a).length > 0)).flatMap
          (fun a => (els a).map (fun e => (key a, e)))).map (fun p => p.1) := by
      obtain ⟨e, he⟩ := List.exists_mem_of_length_pos hlen
      exact List.mem_map.mpr ⟨(key r, e),
        List.mem_flatMap.mpr ⟨r, hrf, List.mem_map.mpr ⟨e, he, rfl⟩⟩, rfl⟩
    rw [if_pos hmem, Option.getD_some]
    exact filter_flatMap_key _ key els (List.Pairwise.filter _ hnd) r hrf
  · have hels : els r = [] := by
      cases hh : els r with
      | nil => rfl
      | cons x xs => rw [hh] at hlen; exact absurd (by simp) hlen
    have hnotmem : key r ∉
        ((rows.filter (fun a => (els a).length > 0)).flatMap
          (fun a => (els a).map (fun e => (key a, e)))).map (fun p => p.1) := by
      intro hmem
      obtain ⟨p, hp, hpk⟩ := List.mem_map.mp hmem
      obtain ⟨a, haf, hpa⟩ := List.mem_flatMap.mp hp
      obtain ⟨e, _, rfl⟩ := List.mem_map.mp hpa
      obtain ⟨ha, halen⟩ := List.mem_filter.mp haf
      by_cases har : a = r
      · subst har
        rw [hels] at halen
        simp at halen
      · exact (List.Pairwise.forall hsym hnd ha hr har) hpk
    rw [if_neg hnotmem, Option.getD_none, hels]

/-- The re-nested enriched classifications group of one object row is
exactly that row's classification list, enriched, in order (with no
group for a row whose list was empty). -/
theorem class_group_eq (term : List TermRow) (objs : List ObjRow)
    (hterm : TermIdsUnique term)
    (hids : objs.Pairwise (fun a b => a.object_id ≠ b.object_id))
    (r : ObjRow) (hr : r ∈ objs) :
    (lookupGroup (classifications_nested term objs) r.object_id).getD []
      = r.classification_ids.map (enrichClass term) := by
  unfold classifications_nested
  rw [classifications_joined_eq term objs hterm]
  have h2 := group_eq_of_blocks objs (fun a => a.object_id)
    (fun a => a.classification_ids.map (enrichClass term)) hids r hr
  simp only [List.length_map] at h2
  exact h2

/-- Constituent counterpart of `class_group_eq`. -/
theorem const_group_eq (term : List TermRow) (objs : List ObjRow)
    (hterm : TermIdsUnique term)
    (hids : objs.Pairwise (fun a b => a.object_id ≠ b.object_id))
    (r : ObjRow) (hr : r ∈ objs) :
    (lookupGroup (constituents_nested term objs) r.object_id).getD []
      = r.constituents.map (enrichConstituent term) := by
  unfold constituents_nested
  rw [constituents_joined_eq term objs hterm]
  have h2 := group_eq_of_blocks objs (fun a => a.object_id)
    (fun a => a.constituents.map (enrichConstituent term)) hids r hr
  simp only [List.length_map] at h2
  exact h2

/-- The fully enriched output row produced for one input object row
when the well-formedness invariants hold. -/
def enrichRow (term : List TermRow) (r : ObjRow) : OutRow :=
  { object_id := r.object_id
    title := r.title
    date_made := r.date_made
    credit_line := r.credit_line
    department := r.department
    dimensions := r.dimensions
    media := r.media
    classifications := r.classification_ids.map (enrichClass term)
    constituents := r.constituents.map (enrichConstituent term) }

/-- Under the data-model invariants (unique record identifiers, unique
lookup identifiers), the whole transform is the per-row enrichment
map. -/
theorem objects_transform_enrich (term : List TermRow) (objs : List ObjRow)
    (hterm : TermIdsUnique term)
    (hids : objs.Pairwise (fun a b => a.object_id ≠ b.object_id)) :
    objects_transform term objs = objs.map (enrichRow term) := by
  rw [objects_transform_map]
  refine List.map_congr_left (fun r hr => ?_)
  unfold assembleRow enrichRow
  rw [class_group_eq term objs hterm hids r hr,
    const_group_eq term objs hterm hids r hr]

/-!
Concrete sample inputs used by the witness and counterexample
theorems.
-/

/-- Small terminology table with unique term identifiers. -/
def sampleTerm : List TermRow :=
  [TermRow.mk (some "T1") (some "object_type") (some "Painting"),
   TermRow.mk (some "T9") (some "classification") (some "Oil on canvas"),
   TermRow.mk (some "N1") (some "nationality") (some "Dutch")]

/-- Object row with one classification and one constituent, all foreign
keys resolvable in `sampleTerm`. -/
def sampleObj1 : ObjRow :=
  { object_id := "OBJ-001"
    title := "Irises"
    date_made := some 1889
    credit_line := "Gift of a donor"
    department := "Painting"
    constituents :=
      [ConstituentIn.mk (some "Vincent") (some "artist") (some 1853) (some "N1")]
    classification_ids := [Classification.mk (some "T1") (some "T9")]
    dimensions := [Dimension.mk (some "height") 92 (some "cm")]
    media := [Media.mk (some "primary") (some "https://img.example/1") none] }

/-- Object row with empty nested columns (the OBJ-003 shape). -/
def sampleObj2 : ObjRow :=
  { object_id := "OBJ-003"
    title := "Fragment"
    date_made := none
    credit_line := "Transfer"
    department := "Antiquities"
    constituents := []
    classification_ids := []
    dimensions := [Dimension.mk (some "height") 12 (some "cm")]
    media := [Media.mk (some "primary") (some "https://img.example/3") none] }

/-- Two-row objects table with distinct record identifiers. -/
def sampleObjs : List ObjRow := [sampleObj1, sampleObj2]

/-- Object row whose classification carries foreign keys that match
nothing in an empty lookup table. -/
def unmatchedRow : ObjRow :=
  { object_id := "OBJ-404"
    title := "Untitled"
    date_made := none
    credit_line := "Found in collection"
    department := "Prints"
    constituents := []
    classification_ids := [Classification.mk (some "T404") (some "T405")]
    dimensions := []
    media := [] }

/-- Object row exercising every unmatched foreign key: the
classification type-key "TX" and term-key "ZZZ" match nothing in
`sampleTerm`, and the constituent nationality-key "T1" names a
terminology row that exists but is not of type "nationality", so it
has no match in the filtered `nationality_lookup` view either. -/
def missRow : ObjRow :=
  { object_id := "OBJ-007"
    title := "Misc"
    date_made := none
    credit_line := "Purchase"
    department := "Prints"
    constituents := [ConstituentIn.mk (some "Anon") (some "carver") none (some "T1")]
    classification_ids := [Classification.mk (some "TX") (some "ZZZ")]
    dimensions := []
    media := [] }

/-!
Claim theorems.
-/

/-- C1: for every pair of input tables (terminology lookup, objects),
the table returned by `objects_transform` has exactly one row per row
of the input objects table — the row count is preserved and the
`object_id` column of the output equals that of the input, so no
object_id is duplicated or dropped by the enrichment. -/
theorem objects_transform_cardinality (term : List TermRow) (objs : List ObjRow) :
    (objects_transform term objs).length = objs.length ∧
      (objects_transform term objs).map (fun r => r.object_id) =
        objs.map (fun r => r.object_id) := by
  rw [objects_transform_map]
  exact ⟨List.length_map _ _, by rw [List.map_map]; rfl⟩

/-- C7: every column not involved in any enrichment join passes through
`objects_transform` unchanged — the output carries, row for row, the
same `object_id`, `title`, `date_made`, `credit_line`, `department`,
`dimensions` and `media` values as the input, and none of these
columns is dropped. -/
theorem objects_transform_passthrough (term : List TermRow) (objs : List ObjRow) :
    (objects_transform term objs).map (fun r =>
        (r.object_id, r.title, r.date_made, r.credit_line, r.department,
          r.dimensions, r.media)) =
      objs.map (fun r =>
        (r.object_id, r.title, r.date_made, r.credit_line, r.department,
          r.dimensions, r.media)) := by
  rw [objects_transform_map, List.map_map]
  rfl

/-- C5: for every input row, under the data-model invariants (pairwise
distinct record identifiers, unique non-null terminology identifiers),
the output row of `objects_transform` at the same position carries the
nested lists enriched element by element — `List.map` of the element
enrichment — hence in the same relative order as the input elements,
each element with its resolved label field attached. -/
theorem objects_transform_order_preservation (term : List TermRow)
    (objs : List ObjRow) (hterm : TermIdsUnique term)
    (hids : objs.Pairwise (fun a b => a.object_id ≠ b.object_id))
    (i : Nat) (r : ObjRow) (hi : objs[i]? = some r) :
    (objects_transform term objs)[i]? = some (enrichRow term r) := by
  rw [objects_transform_enrich term objs hterm hids, List.getElem?_map, hi]
  rfl

/-- Witness for C5 at a concrete input. -/
theorem objects_transform_order_preservation_witness :
    (objects_transform sampleTerm sampleObjs)[0]? = some (enrichRow sampleTerm sampleObj1) :=
  objects_transform_order_preservation sampleTerm sampleObjs (by decide) (by decide)
    0 sampleObj1 (by decide)

/-- C4 counterexample: a row whose foreign keys find no matching rows
in the lookup join does NOT receive an empty enriched list — the
element is kept with null labels, so the output list is the singleton
`[⟨none, none⟩]`, not `[]` as the claim states for such rows. -/
theorem empty_list_stability_cex :
    ((objects_transform [] [unmatchedRow]).map (fun r => r.classifications) =
        [[ClassOut.mk none none]]) ∧
      ([ClassOut.mk none none] : List ClassOut) ≠ [] := by
  constructor
  · decide
  · decide

/-- C4 (amended): under the data-model invariants, a row whose nested
column (`classification_ids` or `constituents`) is an empty list before
enrichment holds an empty list — not null — for the enriched column in
the output of `objects_transform`; the empty-list default applies
exactly to the rows absent from the re-nested join result (the
empty-list rows), while unmatched foreign keys keep their element with
null labels. -/
theorem empty_list_stability (term : List TermRow) (objs : List ObjRow)
    (hterm : TermIdsUnique term)
    (hids : objs.Pairwise (fun a b => a.object_id ≠ b.object_id))
    (i : Nat) (r : ObjRow) (hi : objs[i]? = some r) :
    (r.classification_ids = [] →
      (objects_transform term objs)[i]?.map (fun o => o.classifications) = some []) ∧
    (r.constituents = [] →
      (objects_transform term objs)[i]?.map (fun o => o.constituents) = some []) := by
  rw [objects_transform_enrich term objs hterm hids, List.getElem?_map, hi]
  constructor <;> intro h <;> simp [enrichRow, h]

/-- Witness for C4 (amended) at a concrete input. -/
theorem empty_list_stability_witness :
    ((objects_transform sampleTerm sampleObjs)[1]?.map (fun o => o.classifications)
        = some []) ∧
      ((objects_transform sampleTerm sampleObjs)[1]?.map (fun o => o.constituents)
        = some []) :=
  ⟨(empty_list_stability sampleTerm sampleObjs (by decide) (by decide) 1 sampleObj2
      (by decide)).1 (by decide),
   (empty_list_stability sampleTerm sampleObjs (by decide) (by decide) 1 sampleObj2
      (by decide)).2 (by decide)⟩

/-- A left join against a lookup view in which no identifier matches
the key attaches a null label. -/
theorem lookupVal_eq_none (lk : List (Option String × Option String))
    (k : Option String) (h : ∀ p ∈ lk, keyEq p.1 k = false) :
    lookupVal lk k = none := by
  unfold lookupVal
  rw [List.find?_eq_none.mpr (fun p hp => by simp [h p hp])]

/-- C6: every nested element — in either enriched column — whose
foreign-key field has no matching identifier in the lookup view it is
joined against gets a null label field attached (the embedded
transform is total, so no error is raised), and neither the element
nor its owning row is dropped: the owning row is still present at its
position, both enriched lists have the input lengths, and the element
is still at its index with a null `type_label`, `term_label` or
`nationality` for whichever of its keys is unmatched (for
constituents, the relevant view is the nationality-filtered lookup, so
a `nationality_id` naming a non-nationality term is also unmatched). -/
theorem null_safe_join (term : List TermRow) (objs : List ObjRow)
    (hterm : TermIdsUnique term)
    (hids : objs.Pairwise (fun a b => a.object_id ≠ b.object_id))
    (i : Nat) (r : ObjRow) (hi : objs[i]? = some r) :
    ∃ out, (objects_transform term objs)[i]? = some out ∧
      out.classifications.length = r.classification_ids.length ∧
      out.constituents.length = r.constituents.length ∧
      (∀ (j : Nat) (c : Classification), r.classification_ids[j]? = some c →
        ((∀ p ∈ type_labels term, keyEq p.1 c.type_id = false) →
          out.classifications[j]?.map (fun e => e.type_label) = some none) ∧
        ((∀ p ∈ term_labels term, keyEq p.1 c.term_id = false) →
          out.classifications[j]?.map (fun e => e.term_label) = some none)) ∧
      (∀ (j : Nat) (k : ConstituentIn), r.constituents[j]? = some k →
        (∀ p ∈ nationality_lookup term, keyEq p.1 k.nationality_id = false) →
        out.constituents[j]?.map (fun e => e.nationality) = some none) := by
  refine ⟨enrichRow term r, ?_, ?_, ?_, ?_, ?_⟩
  · rw [objects_transform_enrich term objs hterm hids, List.getElem?_map, hi]
    rfl
  · simp [enrichRow]
  · simp [enrichRow]
  · intro j c hj
    constructor
    · intro hmiss
      simp [enrichRow, List.getElem?_map, hj, enrichClass,
        lookupVal_eq_none _ _ hmiss]
    · intro hmiss
      simp [enrichRow, List.getElem?_map, hj, enrichClass,
        lookupVal_eq_none _ _ hmiss]
  · intro j k hj hmiss
    simp [enrichRow, List.getElem?_map, hj, enrichConstituent,
      lookupVal_eq_none _ _ hmiss]

/-- Witness for C6 at a concrete input covering all three unmatched
foreign keys: an unmatched classification type key, an unmatched
classification term key, and a constituent nationality key that names
an existing but non-nationality term. -/
theorem null_safe_join_witness :
    ∃ out, (objects_transform sampleTerm [missRow])[0]? = some out ∧
      out.classifications.length = 1 ∧
      out.constituents.length = 1 ∧
      out.classifications[0]?.map (fun e => e.type_label) = some none ∧
      out.classifications[0]?.map (fun e => e.term_label) = some none ∧
      out.constituents[0]?.map (fun e => e.nationality) = some none := by
  obtain ⟨out, h1, h2, h3, h4, h5⟩ :=
    null_safe_join sampleTerm [missRow] (by decide) (by decide) 0 missRow
      (by decide)
  refine ⟨out, h1, h2, h3, ?_, ?_, ?_⟩
  · exact (h4 0 (Classification.mk (some "TX") (some "ZZZ")) (by decide)).1
      (by decide)
  · exact (h4 0 (Classification.mk (some "TX") (some "ZZZ")) (by decide)).2
      (by decide)
  · exact h5 0 (ConstituentIn.mk (some "Anon") (some "carver") none (some "T1"))
      (by decide) (by decide)

/-- C3: every cross-column implication check passes when its premise is
false or a required input is null — `sculpture_must_have_depth` is true
for every row whose department is not "Sculpture", and
`constituent_born_before_artwork` is true for every row whose
`date_made` is null or whose maximum constituent birth year is null. -/
theorem vacuous_truth (r : OutRow) :
    (r.department ≠ "Sculpture" → sculpture_has_depth r = some true) ∧
      ((r.date_made = none ∨ max_birth r = none) →
        birth_before_creation r = some true) := by
  constructor
  · intro h
    have hb : (r.department == "Sculpture") = false := by
      simpa using h
    simp [sculpture_has_depth, hb]
  · intro h
    rcases h with h | h
    · cases hmb : max_birth r <;> simp [birth_before_creation, h, hmb]
    · cases hdm : r.date_made <;> simp [birth_before_creation, h, hdm]

/-- Witness for C3 at concrete rows. -/
theorem vacuous_truth_witness :
    sculpture_has_depth (enrichRow sampleTerm sampleObj1) = some true ∧
      birth_before_creation (enrichRow sampleTerm sampleObj2) = some true :=
  ⟨(vacuous_truth (enrichRow sampleTerm sampleObj1)).1 (by decide),
   (vacuous_truth (enrichRow sampleTerm sampleObj2)).2 (by decide)⟩

/-- Output table on which `has_at_least_one_constituent` fails on two
distinct rows while every other check passes. -/
def noConstituentsRow1 : OutRow :=
  { object_id := "OBJ-003"
    title := "Fragment"
    date_made := some 1700
    credit_line := "Transfer"
    department := "Antiquities"
    dimensions := [Dimension.mk (some "height") 12 (some "cm")]
    media := [Media.mk (some "primary") (some "https://img.example/3") none]
    classifications := [ClassOut.mk (some "Ceramic") (some "Porcelain")]
    constituents := [] }

/-- Second row of the two-failure table, with a distinct identifier. -/
def noConstituentsRow2 : OutRow :=
  { object_id := "OBJ-006"
    title := "Bowl"
    date_made := some 1650
    credit_line := "Bequest"
    department := "Ceramics"
    dimensions := [Dimension.mk (some "height") 30 (some "cm")]
    media := [Media.mk (some "primary") (some "https://img.example/6") none]
    classifications := [ClassOut.mk (some "Ceramic") (some "Earthenware")]
    constituents := [] }

/-- Table with the same predicate failing on two rows of the same
column. -/
def twoFailTable : List OutRow := [noConstituentsRow1, noConstituentsRow2]

/-- An `Err` entry is determined by its (column, check) key. -/
theorem err_ext_key {e f : Err} (h : (e.column, e.check) = (f.column, f.check)) :
    e = f := by
  cases e
  cases f
  simpa using h

theorem dedup_errors_go_countP (e0 : Err) (errs : List Err)
    (seen : List (Option String × String)) :
    (dedup_errors_go seen errs).countP (fun e => e == e0) =
      if (e0.column, e0.check) ∈ seen then 0
      else if e0 ∈ errs then 1 else 0 := by
  induction errs generalizing seen with
  | nil =>
    simp [dedup_errors_go]
  | cons e rest ih =>
    unfold dedup_errors_go
    by_cases hseen : (e.column, e.check) ∈ seen
    · rw [if_pos hseen, ih]
      by_cases h0 : (e0.column, e0.check) ∈ seen
      · rw [if_pos h0, if_pos h0]
      · have hne0 : ¬(e0 = e) := fun hh => h0 (by rw [hh]; exact hseen)
        rw [if_neg h0, if_neg h0]
        have hmem : (e0 ∈ e :: rest) ↔ (e0 ∈ rest) := by
          simp [List.mem_cons, hne0]
        rw [if_congr hmem rfl rfl]
    · rw [if_neg hseen, List.countP_cons, ih]
      by_cases he : e = e0
      · subst he
        have hbe : (e == e) = true := by simp
        rw [hbe, if_pos rfl, if_pos (List.mem_cons_self _ _),
          if_pos (List.mem_cons_self _ _), if_neg hseen]
      · have hne0 : ¬(e0 = e) := fun hh => he hh.symm
        have hkey : ¬((e0.column, e0.check) = (e.column, e.check)) :=
          fun hh => hne0 (err_ext_key hh)
        have hbe : (e == e0) = false := by
          simpa using he
        have hmem1 : ((e0.column, e0.check) ∈ (e.column, e.check) :: seen) ↔
            ((e0.column, e0.check) ∈ seen) := by
          simp [List.mem_cons, hkey]
        have hmem2 : (e0 ∈ e :: rest) ↔ (e0 ∈ rest) := by
          simp [List.mem_cons, hne0]
        rw [hbe, if_congr hmem1 rfl rfl, if_congr hmem2 rfl rfl]
        simp

/-- C2 counterexample: the list returned by `check_objects_transform`
is NOT deduplicated by (column, check): with
`has_at_least_one_constituent` failing on two rows of the
`constituents` column, the returned list holds two entries — not
exactly one — for that (column, predicate) pair. -/
theorem dedup_before_return_cex :
    ((check_objects_transform twoFailTable).2.countP
        (fun e => e == Err.mk (some "constituents") "has_at_least_one_constituent")
      = 2) ∧
      ¬((check_objects_transform twoFailTable).2.countP
        (fun e => e == Err.mk (some "constituents") "has_at_least_one_constituent")
      = 1) := by
  constructor
  · decide
  · decide

/-- C2 (amended): the list returned by `check_objects_transform`
carries one entry per failing case row; it is the caller (`main`) that
deduplicates it by (column, check) before reporting, after which the
list holds exactly one entry for each (column, predicate) pair that
failed at least once. -/
theorem dedup_by_column_check (t : List OutRow) (e0 : Err)
    (h : 0 < (check_objects_transform t).2.countP (fun e => e == e0)) :
    (dedup_errors ((check_objects_transform t).2)).countP (fun e => e == e0)
      = 1 := by
  obtain ⟨a, ha, hpa⟩ := List.countP_pos_iff.mp h
  have hae : a = e0 := by simpa using hpa
  subst hae
  unfold dedup_errors
  rw [dedup_errors_go_countP, if_neg (List.not_mem_nil _), if_pos ha]

/-- Witness for C2 (amended) at a concrete input. -/
theorem dedup_by_column_check_witness :
    (dedup_errors ((check_objects_transform twoFailTable).2)).countP
      (fun e => e == Err.mk (some "constituents") "has_at_least_one_constituent")
      = 1 :=
  dedup_by_column_check twoFailTable
    (Err.mk (some "constituents") "has_at_least_one_constituent") (by decide)

/-- C8 counterexample: the xml variant of `check_objects_transform` is
fail-fast within a column: on a table where `has_at_least_one_artist`
(schema.py's unguarded version) fails, the returned failure list holds
no entry for it, because the earlier `has_at_least_one_constituent`
failure of the same column preempts it. -/
theorem full_evaluation_cex :
    (twoFailTable.any (fun r => rowFails (has_artist_xml r)) = true) ∧
      ((check_objects_transform_xml twoFailTable).2.countP
        (fun e => e == Err.mk (some "constituents") "has_at_least_one_artist")
      = 0) := by
  constructor
  · decide
  · decide

/-- C8 (amended): pipeline.py's `check_objects_transform` performs
full evaluation — the returned failure list contains an entry for
every failing check, across all columns and all dataframe-wide
checks.  pipeline_xml.py's variant evaluates every column (it does not
stop at the first failing column), but within a column it reports only
the first failing check of that column's ordered list. -/
theorem full_evaluation :
    (∀ (t : List OutRow) (c : CheckId), c ∈ allChecks →
        (t.map (checkRow c t)).any rowFails = true →
        Err.mk (checkColumn c) (checkName c) ∈ (check_objects_transform t).2) ∧
      (∀ (t : List OutRow) (col : String) (cl : List XmlCheck),
        (col, cl) ∈ xml_schema_columns →
        (∃ c ∈ cl, checkFailsSomewhere t c = true) →
        ∃ c, cl.find? (checkFailsSomewhere t) = some c ∧
          Err.mk (some col) c.name ∈ (check_objects_transform_xml t).2) := by
  constructor
  · intro t c hc hfail
    have hmem : Err.mk (checkColumn c) (checkName c) ∈ failure_cases t := by
      obtain ⟨x, hx, hpx⟩ := List.any_eq_true.mp hfail
      exact List.mem_flatMap.mpr ⟨c, hc,
        List.mem_map.mpr ⟨x, List.mem_filter.mpr ⟨hx, hpx⟩, rfl⟩⟩
    have hne : failure_cases t ≠ [] := List.ne_nil_of_mem hmem
    unfold check_objects_transform
    rw [if_neg (by simpa [List.isEmpty_iff] using hne)]
    exact hmem
  · intro t col cl hcol hex
    have hsome : (cl.find? (checkFailsSomewhere t)).isSome = true :=
      List.find?_isSome.mpr hex
    obtain ⟨c, hfind⟩ := Option.isSome_iff_exists.mp hsome
    refine ⟨c, hfind, ?_⟩
    have hmem : Err.mk (some col) c.name ∈ xml_errors t :=
      List.mem_filterMap.mpr ⟨(col, cl), hcol, by simp [hfind]⟩
    have hne : xml_errors t ≠ [] := List.ne_nil_of_mem hmem
    unfold check_objects_transform_xml
    rw [if_neg (by simpa [List.isEmpty_iff] using hne)]
    exact hmem

/-- Witness for C8 (amended) at a concrete input, for both variants. -/
theorem full_evaluation_witness :
    (Err.mk (some "constituents") "has_at_least_one_constituent" ∈
        (check_objects_transform twoFailTable).2) ∧
      ∃ c, xml_constituents_checks.find? (checkFailsSomewhere twoFailTable)
          = some c ∧
        Err.mk (some "constituents") c.name ∈
          (check_objects_transform_xml twoFailTable).2 :=
  ⟨full_evaluation.1 twoFailTable CheckId.has_at_least_one_constituent
      (by decide) (by decide),
   full_evaluation.2 twoFailTable "constituents" xml_constituents_checks
      (by unfold xml_schema_columns; simp)
      ⟨XmlCheck.mk "has_at_least_one_constituent" (fun _ => has_constituents),
        List.mem_cons_self _ _, by decide⟩⟩

/-- Terminology frame carrying the standard harvest schema. -/
def goodTermFrame : TermFrame :=
  TermFrame.mk ["term_id", "term_type", "label"] sampleTerm

/-- Objects frame whose schema is missing the `classification_ids` and
`constituents` columns referenced by the enrichment (the element field
lists are full). -/
def badObjFrame : ObjFrame :=
  ObjFrame.mk
    ["object_id", "title", "date_made", "credit_line", "department",
     "dimensions", "media"]
    ["type_id", "term_id"]
    ["nationality_id", "name", "role", "birth_year"] []

/-- Objects frame carrying every referenced column but whose
`classification_ids` element shape is missing the `term_id` struct
field used as a join key. -/
def badFieldObjFrame : ObjFrame :=
  ObjFrame.mk
    ["object_id", "title", "date_made", "credit_line", "department",
     "dimensions", "media", "classification_ids", "constituents"]
    ["type_id"]
    ["nationality_id", "name", "role", "birth_year"] []

/-- Objects frame carrying the full harvest schema and element
shapes. -/
def goodObjFrame : ObjFrame :=
  ObjFrame.mk
    ["object_id", "title", "date_made", "credit_line", "department",
     "dimensions", "media", "classification_ids", "constituents"]
    ["type_id", "term_id"]
    ["nationality_id", "name", "role", "birth_year"] sampleObjs

/-- C9 counterexample: with an enrichment configured against a column
(or a struct field) absent from the input table, building the lazy
plan succeeds and the `ColumnNotFoundError` is produced by the
terminal `collect(engine="streaming")` step — the error IS deferred to
the evaluation/materialization step, contrary to the claim that it is
raised at pipeline-build time; a missing column and a missing element
field behave identically. -/
theorem construction_error_timing_cex :
    (objects_transform_frames goodTermFrame badObjFrame =
        Except.error "ColumnNotFoundError: classification_ids") ∧
      (objects_transform_frames goodTermFrame badFieldObjFrame =
        Except.error "ColumnNotFoundError: term_id") := by
  constructor
  · rfl
  · rfl

/-- C9 (amended): a reference to a column or a struct field that does
not exist in the input table aborts `objects_transform` with an error
raised at the terminal collect/materialization step — the Polars lazy
API defers column- and field-resolution errors to collection, and plan
construction itself is total and never raises; with all referenced
columns and fields present, the collect succeeds with the enriched
table. -/
theorem construction_errors_at_collect (t : TermFrame) (o : ObjFrame) :
    (missing_columns (objects_transform_plan t o) ≠ [] →
      ∃ c, c ∈ missing_columns (objects_transform_plan t o) ∧
        objects_transform_frames t o =
          Except.error ("ColumnNotFoundError: " ++ c)) ∧
    (missing_columns (objects_transform_plan t o) = [] →
      objects_transform_frames t o =
        Except.ok (objects_transform t.rows o.rows)) := by
  constructor
  · intro hne
    cases h : missing_columns (objects_transform_plan t o) with
    | nil => exact absurd h hne
    | cons c rest =>
      refine ⟨c, List.mem_cons_self _ _, ?_⟩
      unfold objects_transform_frames collect_streaming
      rw [h]
  · intro he
    unfold objects_transform_frames collect_streaming
    rw [he]
    rfl

/-- Witness for C9 (amended) at concrete inputs: the frame missing a
column errors at collect, the frame missing a struct field errors at
collect, and the well-formed frame collects. -/
theorem construction_errors_at_collect_witness :
    (∃ c, c ∈ missing_columns (objects_transform_plan goodTermFrame badObjFrame) ∧
      objects_transform_frames goodTermFrame badObjFrame =
        Except.error ("ColumnNotFoundError: " ++ c)) ∧
      (∃ c, c ∈ missing_columns (objects_transform_plan goodTermFrame badFieldObjFrame) ∧
        objects_transform_frames goodTermFrame badFieldObjFrame =
          Except.error ("ColumnNotFoundError: " ++ c)) ∧
      objects_transform_frames goodTermFrame goodObjFrame =
        Except.ok (objects_transform sampleTerm sampleObjs) :=
  ⟨(construction_errors_at_collect goodTermFrame badObjFrame).1 (by decide),
   (construction_errors_at_collect goodTermFrame badFieldObjFrame).1 (by decide),
   (construction_errors_at_collect goodTermFrame goodObjFrame).2 (by decide)⟩

/-- C10: `check_objects_transform` returns `passed == true` exactly
when the returned failure list is empty, in both variants — a failing
validation yields `(false, fs)` with `fs` non-empty, a passing one
yields `(true, [])`, and the embedded check functions are total, so
data-quality violations never escape as exceptions. -/
theorem passed_iff_no_failures (t : List OutRow) :
    ((check_objects_transform t).1 = true ↔ (check_objects_transform t).2 = []) ∧
      ((check_objects_transform_xml t).1 = true ↔
        (check_objects_transform_xml t).2 = []) := by
  constructor
  · unfold check_objects_transform
    by_cases h : (failure_cases t).isEmpty
    · rw [if_pos h]
      simp
    · rw [if_neg h]
      simp only [List.isEmpty_iff] at h
      simp [h]
  · unfold check_objects_transform_xml
    by_cases h : (xml_errors t).isEmpty
    · rw [if_pos h]
      simp
    · rw [if_neg h]
      simp only [List.isEmpty_iff] at h
      simp [h]
